import Mathlib

/-!
Verification of the Cubiq chain proof-gated consensus pipeline.

Shallow embedding of the Rust sources:
- `src/core/zkurl/src/lib.rs`      (zkURL data model and parser)
- `src/core/zkurl/src/resolver.rs` (proof fetching with fallback, bundle validation)
- `src/core/prover/src/lib.rs`     (mobile STARK verifier)
- `src/core/consensus/src/lib.rs`  (consensus engine, state, vote processing)

Machine integers (u64, u32, usize) are modelled as `Nat`, with explicit
`% 2^w` where Rust (release-mode) wrapping semantics matter. Network and
clock effects are passed as explicit environment parameters. Fallible Rust
functions returning `Result` are modelled with `Except`.
-/

deriving instance DecidableEq for Except

namespace Cubiq

/-! ## zkURL data model and parser (src/core/zkurl/src/lib.rs) -/

/-- Embeds `ZkURLMetadata` (zkurl/src/lib.rs lines 18-23). -/
structure ZkURLMetadata where
  version : String
  compression : Option String
  proof_type : String
deriving DecidableEq

/-- Embeds `ZkURL` (zkurl/src/lib.rs lines 6-16). -/
structure ZkURL where
  prover_id : Option String
  domain_or_hash : String
  proof_id : String
  metadata : Option ZkURLMetadata
deriving DecidableEq

/-- Embeds `ZkURLError` (zkurl/src/lib.rs lines 26-31). -/
inductive ZkURLError where
  | InvalidScheme
  | InvalidFormat
  | ParseError (msg : String)
deriving DecidableEq

/-- Embeds the `Display` impl for `ZkURLError` (zkurl/src/lib.rs lines 33-41). -/
def ZkURLError.display : ZkURLError → String
  | .InvalidScheme => "Invalid zkURL scheme"
  | .InvalidFormat => "Invalid zkURL format"
  | .ParseError err => "Parse error: " ++ err

/-- Rust `str::split(c)` semantics on character lists: `n` occurrences of the
separator yield `n + 1` parts; the empty string yields one empty part. -/
def splitAll (c : Char) : List Char → List (List Char)
  | [] => [[]]
  | x :: xs =>
    let rest := splitAll c xs
    if x = c then [] :: rest
    else
      match rest with
      | [] => [[x]]
      | h :: t => (x :: h) :: t

/-- Splits a character list at the first occurrence of `c`, dropping it:
`some (before, after)` when `c` occurs, `none` otherwise. Models Rust
`find` plus `split_at`, and `splitn(2, c)` (where a single resulting part
corresponds to `none`). -/
def splitAtFirst (c : Char) : List Char → Option (List Char × List Char)
  | [] => none
  | x :: xs =>
    if x = c then some ([], xs)
    else
      match splitAtFirst c xs with
      | none => none
      | some (a, b) => some (x :: a, b)

/-- Embeds `ZkURLMetadata::parse` (zkurl/src/lib.rs lines 92-102):
`&`-separated positional fields with defaults `"v1"` and `"stark"`. -/
def ZkURLMetadata.parse (s : List Char) : Except ZkURLError ZkURLMetadata :=
  let parts := splitAll '&' s
  .ok
    { version := String.mk ((parts.get? 0).getD "v1".data)
      compression := (parts.get? 1).map String.mk
      proof_type := String.mk ((parts.get? 2).getD "stark".data) }

/-- Embeds `s.starts_with("zk://")` (zkurl/src/lib.rs line 51). -/
def startsWithScheme : List Char → Bool
  | 'z' :: 'k' :: ':' :: '/' :: '/' :: _ => true
  | _ => false

/-- The `(prover_id, remaining)` split on `'@'` (zkurl/src/lib.rs lines
55-61): `prover_id` is set only when the `'@'`-split yields exactly two
parts; otherwise `remaining` is the first part. -/
def proverIdOf (url_part : List Char) : Option (List Char) :=
  let parts := splitAll '@' url_part
  if parts.length = 2 then some (parts.getD 0 []) else none

/-- The `remaining` component of the `'@'` split (zkurl/src/lib.rs lines 55-61). -/
def remainingOf (url_part : List Char) : List Char :=
  let parts := splitAll '@' url_part
  if parts.length = 2 then parts.getD 1 [] else parts.getD 0 []

/-- The `domain_hash_and_path` component: `remaining` up to the first `'#'`
(zkurl/src/lib.rs lines 63-68). -/
def domainHashAndPath (url_part : List Char) : List Char :=
  match splitAtFirst '#' (remainingOf url_part) with
  | some (l, _) => l
  | none => remainingOf url_part

/-- The `metadata_str` component: the text after the first `'#'`, when any
(zkurl/src/lib.rs lines 63-68). -/
def metadataStr (url_part : List Char) : Option (List Char) :=
  match splitAtFirst '#' (remainingOf url_part) with
  | some (_, r) => some r
  | none => none

/-- The body of `ZkURL::from_str` after the scheme has been stripped
(zkurl/src/lib.rs lines 54-88): split on `'/'` into domain-or-hash and
proof id (`InvalidFormat` when there is no `'/'`), then parse metadata. -/
def fromStrBody (url_part : List Char) : Except ZkURLError ZkURL :=
  match splitAtFirst '/' (domainHashAndPath url_part) with
  | none => .error .InvalidFormat
  | some (d, p) =>
    match (metadataStr url_part).map ZkURLMetadata.parse with
    | some (.error e) => .error e
    | some (.ok md) =>
      .ok ⟨(proverIdOf url_part).map String.mk, String.mk d, String.mk p, some md⟩
    | none =>
      .ok ⟨(proverIdOf url_part).map String.mk, String.mk d, String.mk p, none⟩

/-- Embeds `ZkURL::from_str` (zkurl/src/lib.rs lines 50-89): reject with
`InvalidScheme` unless the input starts with `"zk://"`, then parse the rest. -/
def fromStr (s : List Char) : Except ZkURLError ZkURL :=
  if startsWithScheme s then fromStrBody (s.drop 5) else .error .InvalidScheme

/-! ## Proof bundles and the resolver (src/core/zkurl/src/resolver.rs) -/

/-- Embeds `PublicInputs` (resolver.rs lines 17-23); `gas_used : u64` and
`transaction_count : u32` are modelled as `Nat`. -/
structure PublicInputs where
  block_hash : String
  state_root : String
  gas_used : Nat
  transaction_count : Nat
deriving DecidableEq

/-- Embeds `ProofMetadata` (resolver.rs lines 25-30). -/
structure ProofMetadata where
  version : String
  compression : Option String
  size_bytes : Nat
deriving DecidableEq

/-- Embeds `ProofBundle` (resolver.rs lines 7-15); `proof : Vec<u8>` is a
list of byte values and `timestamp : u64` (unix seconds) a `Nat`. -/
structure ProofBundle where
  proof : List Nat
  public_inputs : PublicInputs
  signature : String
  prover_id : String
  timestamp : Nat
  metadata : ProofMetadata
deriving DecidableEq

/-- The timestamp test of `verify_proof_bundle` (resolver.rs line 104):
`current_time < bundle.timestamp || current_time - bundle.timestamp > 3600`.
Rust `||` short-circuits, and `current_time - bundle.timestamp` is u64
subtraction, modelled by truncated `Nat` subtraction. -/
def freshnessGuard (current_time ts : Nat) : Bool :=
  current_time < ts || current_time - ts > 3600

/-- The same timestamp test with mathematically exact (integer) subtraction,
used to state that the u64 subtraction never underflows observably. -/
def freshnessGuardExact (current_time ts : Nat) : Bool :=
  current_time < ts || (current_time : Int) - (ts : Int) > 3600

/-- Embeds `ZkURLResolver::verify_proof_bundle` (resolver.rs lines 94-116):
reject on the timestamp test, then reject proofs longer than 5,000,000
bytes, else accept. The local clock read is passed as `current_time`; the
Rust function wraps the `Bool` in `Ok` (its only error source is a
pre-epoch system clock, not representable here). -/
def verify_proof_bundle (current_time : Nat) (bundle : ProofBundle) : Bool :=
  if freshnessGuard current_time bundle.timestamp then false
  else if bundle.proof.length > 5000000 then false
  else true

/-- Embeds `ZkURLResolver::construct_url` (resolver.rs lines 121-134). -/
def construct_url (zkurl : ZkURL) : String :=
  match zkurl.prover_id with
  | some _ => "https://" ++ zkurl.domain_or_hash ++ "/proof/" ++ zkurl.proof_id
  | none => "https://ipfs.io/ipfs/" ++ zkurl.domain_or_hash

/-- The fallback loop of `ZkURLResolver::fetch_proof` (resolver.rs lines
66-75). `env` maps a URL to the outcome of `fetch_from_endpoint` on it:
`some bundle` on a successful fetch-and-parse, `none` on any network,
HTTP-status, or JSON failure. -/
def fetch_fallbacks (env : String → Option ProofBundle) (current_time : Nat)
    (proof_id : String) : List String → Except ZkURLError ProofBundle
  | [] => .error (.ParseError "Proof not found at any endpoint")
  | endpoint :: rest =>
    match env (endpoint ++ "/proof/" ++ proof_id) with
    | some bundle =>
      if verify_proof_bundle current_time bundle then .ok bundle
      else fetch_fallbacks env current_time proof_id rest
    | none => fetch_fallbacks env current_time proof_id rest

/-- Embeds `ZkURLResolver::fetch_proof` (resolver.rs lines 55-76): try the
primary constructed URL, then each fallback endpoint in order as
`{endpoint}/proof/{proof_id}`, returning the first bundle that both fetches
and validates; error out only after all attempts fail. -/
def fetch_proof (env : String → Option ProofBundle) (current_time : Nat)
    (fallback_endpoints : List String) (zkurl : ZkURL) :
    Except ZkURLError ProofBundle :=
  match env (construct_url zkurl) with
  | some bundle =>
    if verify_proof_bundle current_time bundle then .ok bundle
    else fetch_fallbacks env current_time zkurl.proof_id fallback_endpoints
  | none => fetch_fallbacks env current_time zkurl.proof_id fallback_endpoints

/-- Spec-side definition, following the spec's words: "return the first
bundle that both fetches and validates" over a list of candidate URLs. -/
def firstValidBundle (env : String → Option ProofBundle) (current_time : Nat) :
    List String → Option ProofBundle
  | [] => none
  | url :: rest =>
    match env url with
    | some bundle =>
      if verify_proof_bundle current_time bundle then some bundle
      else firstValidBundle env current_time rest
    | none => firstValidBundle env current_time rest

/-- Spec-side definition: the URL sequence an address induces — the primary
constructed URL, then each fallback endpoint as `{endpoint}/proof/{proof_id}`. -/
def candidateUrls (zkurl : ZkURL) (fallback_endpoints : List String) : List String :=
  construct_url zkurl :: fallback_endpoints.map (fun e => e ++ "/proof/" ++ zkurl.proof_id)

/-! ## Mobile STARK verifier (src/core/prover/src/lib.rs) -/

/-- Goldilocks base field elements (`type F = Goldilocks`); the verifier
inspects only the emptiness of commitment lists, so elements are modelled
as `Nat` values. -/
abbrev F := Nat

/-- Degree-2 binomial extension field elements (`type EF`). -/
abbrev EF := F × F

/-- A `[F; 4]` commitment cap entry. -/
abbrev FArr4 := F × F × F × F

/-- Embeds `FRIQueryStep` (prover/src/lib.rs lines 115-119). -/
structure FRIQueryStep where
  sibling_value : EF
  opening_proof : List FArr4
deriving DecidableEq

/-- Embeds `QueryProof` (prover/src/lib.rs lines 109-113). -/
structure QueryProof where
  initial_trees_proof : List (List F)
  steps : List FRIQueryStep
deriving DecidableEq

/-- Embeds `FRIProof` (prover/src/lib.rs lines 102-107). -/
structure FRIProof where
  commit_phase_caps : List (List FArr4)
  query_proofs : List QueryProof
  final_poly : List EF
deriving DecidableEq

/-- Embeds `STARKProof` (prover/src/lib.rs lines 95-100). -/
structure STARKProof where
  trace_cap : List FArr4
  quotient_chunks_cap : List FArr4
  fri_proof : FRIProof
deriving DecidableEq

/-- Embeds `VerifierConfig` (prover/src/lib.rs lines 121-125). -/
structure VerifierConfig where
  max_memory_mb : Nat
  max_verification_time_ms : Nat
  fri_queries : Nat
deriving DecidableEq

/-- Embeds `VerifierConfig::mobile_optimized` (prover/src/lib.rs lines 127-135). -/
def VerifierConfig.mobile_optimized : VerifierConfig :=
  { max_memory_mb := 400, max_verification_time_ms := 500, fri_queries := 80 }

/-- Embeds `MobileProofVerifier::verify_proof_structure` (prover/src/lib.rs
lines 80-82): both commitment caps non-empty. -/
def verify_proof_structure (proof : STARKProof) : Bool :=
  !proof.trace_cap.isEmpty && !proof.quotient_chunks_cap.isEmpty

/-- Embeds `MobileProofVerifier::verify_fri_consistency` (prover/src/lib.rs
lines 84-87): a stub that always returns `true`. -/
def verify_fri_consistency (_proof : STARKProof) : Bool :=
  true

/-- Embeds `MobileProofVerifier::verify_constraints` (prover/src/lib.rs
lines 89-92): a stub that always returns `true`. -/
def verify_constraints (_proof : STARKProof) : Bool :=
  true

/-- Embeds `MobileProofVerifier::verify_stark_proof` (prover/src/lib.rs
lines 70-78): structural check, then FRI consistency, then constraint
satisfaction, each failure returning `false` immediately. -/
def verify_stark_proof (proof : STARKProof) : Bool :=
  if !verify_proof_structure proof then false
  else if !verify_fri_consistency proof then false
  else verify_constraints proof

/-- Embeds `MobileProofVerifier::verify_proof` (prover/src/lib.rs lines
32-50). `decode` stands for the external bincode `deserialize_proof`
(lines 65-67): `some proof` when the bytes decode, `none` otherwise.
`elapsed_ms` is the measured wall-clock duration of the verification call.
The result pairs the console warnings emitted with the returned
`Result<bool, _>`. -/
def verify_proof (decode : List Nat → Option STARKProof) (elapsed_ms : Nat)
    (proof_bytes : List Nat) : List String × Except String Bool :=
  match decode proof_bytes with
  | none => ([], .error "Failed to deserialize proof")
  | some proof =>
    let result := verify_stark_proof proof
    let warnings :=
      if elapsed_ms > VerifierConfig.mobile_optimized.max_verification_time_ms then
        ["Warning: Proof verification exceeded target"]
      else []
    (warnings, .ok result)

/-! ## Consensus engine and state (src/core/consensus/src/lib.rs) -/

/-- Embeds `Transaction` (consensus/src/lib.rs lines 19-27). The Rust
fields `from`/`to` are named `from_addr`/`to_addr` (`from` is a Lean
keyword); `value`/`gas_used` are u64, `data` a byte vector. -/
structure Transaction where
  hash : String
  from_addr : String
  to_addr : String
  value : Nat
  gas_used : Nat
  data : List Nat
deriving DecidableEq

/-- Embeds `BlockProposal` (consensus/src/lib.rs lines 9-17). -/
structure BlockProposal where
  block_hash : String
  state_root : String
  zkurl : String
  transactions : List Transaction
  proposer_id : String
  timestamp : Nat
deriving DecidableEq

/-- Embeds `Validator` (consensus/src/lib.rs lines 29-36). -/
structure Validator where
  node_id : String
  stake : Nat
  public_key : String
  is_active : Bool
  last_vote_time : Nat
deriving DecidableEq

/-- Embeds `Vote` (consensus/src/lib.rs lines 38-45). -/
structure Vote where
  block_hash : String
  voter_id : String
  stake : Nat
  timestamp : Nat
  signature : String
deriving DecidableEq

/-- Embeds `ConsensusState` (consensus/src/lib.rs lines 64-70). The
`votes: HashMap<String, Vote>` map is modelled as an association list with
unique keys. -/
structure ConsensusState where
  current_height : Nat
  current_round : Nat
  votes : List (String × Vote)
  finalized_blocks : List String
deriving DecidableEq

/-- Embeds `ConsensusState::new` (consensus/src/lib.rs lines 73-80). -/
def ConsensusState.new : ConsensusState :=
  { current_height := 0, current_round := 0, votes := [], finalized_blocks := [] }

/-- Embeds `ConsensusState::group_votes_by_block` (consensus/src/lib.rs
lines 82-88) restricted to one block hash: the votes stored for it. -/
def ConsensusState.votesForBlock (st : ConsensusState) (block_hash : String) :
    List Vote :=
  (st.votes.map Prod.snd).filter (fun v => v.block_hash = block_hash)

/-- The static configuration of `QubeNode` (consensus/src/lib.rs lines
91-108): node identity, configured stake, and the resolver's fallback
endpoints. The shared `validator_set`/`consensus_state` cells are passed
explicitly where used. -/
structure QubeNode where
  node_id : String
  stake_amount : Nat
  fallback_endpoints : List String

/-- The effectful context of one `process_block_proposal` call: the network
fetch outcomes, the bincode decode outcome, the clock, the measured
verification duration, and whether the outbound vote channel still has a
receiver. -/
structure NetEnv where
  fetch : String → Option ProofBundle
  decode : List Nat → Option STARKProof
  now : Nat
  elapsed_ms : Nat
  vote_channel_open : Bool

/-- The observable outcome of one `process_block_proposal` call: the
consensus state afterwards, the votes sent on the outbound channel, and the
returned `Result<(), String>`. -/
structure ProcResult where
  state : ConsensusState
  sent_votes : List Vote
  result : Except String Unit

/-- The gas sum of `process_block_proposal` (consensus/src/lib.rs line
146): `u64` summation, so wrapping modulo `2^64` in release builds. -/
def calc_gas (proposal : BlockProposal) : Nat :=
  ((proposal.transactions.map Transaction.gas_used).sum) % 18446744073709551616

/-- The `proposal.transactions.len() as u32` cast (consensus/src/lib.rs
line 143): usize length truncated modulo `2^32`. -/
def txCountU32 (proposal : BlockProposal) : Nat :=
  proposal.transactions.length % 4294967296

/-- Embeds `QubeNode::process_block_proposal` (consensus/src/lib.rs lines
122-162): parse the zkURL, fetch the proof bundle, verify the proof, run
the four consistency checks in order, then construct the vote and send it
on the outbound channel. The consensus state is passed through explicitly;
the Rust function never reads or writes `self.consensus_state`, so the
state is returned unchanged on every path. -/
def process_block_proposal (node : QubeNode) (env : NetEnv)
    (st : ConsensusState) (proposal : BlockProposal) : ProcResult :=
  match fromStr proposal.zkurl.data with
  | .error e => ⟨st, [], .error ("Invalid zkURL: " ++ e.display)⟩
  | .ok zkurl =>
    match fetch_proof env.fetch env.now node.fallback_endpoints zkurl with
    | .error e => ⟨st, [], .error ("Failed to fetch proof: " ++ e.display)⟩
    | .ok bundle =>
      match (verify_proof env.decode env.elapsed_ms bundle.proof).2 with
      | .error e => ⟨st, [], .error ("Proof verify error: " ++ e)⟩
      | .ok false => ⟨st, [], .error "Proof did not pass verification"⟩
      | .ok true =>
        if proposal.block_hash ≠ bundle.public_inputs.block_hash then
          ⟨st, [], .error "Block hash mismatch with proof's public inputs!"⟩
        else if proposal.state_root ≠ bundle.public_inputs.state_root then
          ⟨st, [], .error "State root mismatch!"⟩
        else if txCountU32 proposal ≠ bundle.public_inputs.transaction_count then
          ⟨st, [], .error "Transaction count mismatch!"⟩
        else if calc_gas proposal ≠ bundle.public_inputs.gas_used then
          ⟨st, [], .error "Gas usage mismatch!"⟩
        else
          let vote : Vote :=
            ⟨proposal.block_hash, node.node_id, node.stake_amount, env.now,
              "dummy_signature"⟩
          if env.vote_channel_open then ⟨st, [vote], .ok ()⟩
          else ⟨st, [], .error "Failed to send vote: channel closed"⟩

/-- Spec-side enumeration of the four consistency-check fields. -/
inductive MismatchField where
  | blockHashField
  | stateRootField
  | txCountField
  | gasField
deriving DecidableEq

/-- Spec-side definition, following the spec's words: the consistency
checks run "in this order and stopping at the first mismatch"; `none` when
all four fields agree. -/
def firstMismatch (proposal : BlockProposal) (bundle : ProofBundle) :
    Option MismatchField :=
  if proposal.block_hash ≠ bundle.public_inputs.block_hash then
    some .blockHashField
  else if proposal.state_root ≠ bundle.public_inputs.state_root then
    some .stateRootField
  else if txCountU32 proposal ≠ bundle.public_inputs.transaction_count then
    some .txCountField
  else if calc_gas proposal ≠ bundle.public_inputs.gas_used then
    some .gasField
  else none

/-- Loop-control outcome of one iteration of `QubeNode::run`. -/
inductive LoopControl where
  | continueLoop
  | terminateLoop
deriving DecidableEq

/-- Embeds the body of `QubeNode::run`'s loop (consensus/src/lib.rs lines
111-119): receive a proposal (`none` models a closed/empty inbound channel
yield), process it, print any failure, and fall through to the next
iteration. The body contains no `break` or `return`, so every branch
yields `continueLoop`; the second component is the `eprintln!` output. -/
def run_loop_body (recv_result : Option BlockProposal)
    (handle : BlockProposal → ProcResult) : LoopControl × List String :=
  match recv_result with
  | some proposal =>
    match (handle proposal).result with
    | .error e => (.continueLoop, ["Proposal processing failed: " ++ e])
    | .ok _ => (.continueLoop, [])
  | none => (.continueLoop, [])

/-! ## Vote recording (ConsensusLedger) -/

/-- Modelled from the spec: the vote-store key. The source declares
`ConsensusState.votes : HashMap<String, Vote>` but contains no insertion
site; spec sections 3 and 4.5 fix the keying as the triple
`(height, block_hash, voter_id)`, unique per vote. -/
def voteKey (height : Nat) (block_hash voter_id : String) : String :=
  toString height ++ ":" ++ block_hash ++ ":" ++ voter_id

/-- HashMap insertion on the association-list model: replace the binding
when the key is present, append it otherwise. -/
def insertVote (key : String) (v : Vote) :
    List (String × Vote) → List (String × Vote)
  | [] => [(key, v)]
  | (k, w) :: rest =>
    if k = key then (key, v) :: rest else (k, w) :: insertVote key v rest

/-- Modelled from the spec: `ConsensusLedger.record_vote`'s insertion step
(spec section 4.5) — insert the vote keyed by
`(height, block_hash, voter_id)`, idempotently on a duplicate key. The
finalization bookkeeping of `record_vote` is not needed by the claims and
is omitted. -/
def record_vote (height : Nat) (v : Vote) (st : ConsensusState) :
    ConsensusState :=
  { st with votes := insertVote (voteKey height v.block_hash v.voter_id) v st.votes }

/-- Modelled from the spec: the aggregate stake for `(height, block_hash)` —
the summed stake of stored votes for that block hash keyed at that height. -/
def aggregate_stake (st : ConsensusState) (height : Nat) (block_hash : String) :
    Nat :=
  ((st.votes.filter (fun kv =>
      kv.2.block_hash = block_hash ∧
        kv.1 = voteKey height block_hash kv.2.voter_id)).map
    (fun kv => kv.2.stake)).sum

/-- HashMap lookup on the association-list model of `ConsensusState.votes`. -/
def lookupVote (key : String) : List (String × Vote) → Option Vote
  | [] => none
  | (k, w) :: rest => if k = key then some w else lookupVote key rest

/-! ## Concrete fixtures used by witnesses and counterexamples -/

/-- A well-formed proof bundle matching `proposal0`'s commitments. -/
def bundle0 : ProofBundle :=
  ⟨[0], ⟨"bh", "sr", 0, 0⟩, "", "prover1", 1000, ⟨"v1", none, 1⟩⟩

/-- A bundle agreeing with `proposal0` on everything except `state_root`. -/
def bundle1 : ProofBundle :=
  ⟨[0], ⟨"bh", "other", 0, 0⟩, "", "prover1", 1000, ⟨"v1", none, 1⟩⟩

/-- A structurally valid STARK proof: both commitment caps non-empty. -/
def proof0 : STARKProof :=
  ⟨[(0, 0, 0, 0)], [(0, 0, 0, 0)], ⟨[], [], []⟩⟩

/-- A concrete decode outcome: the byte string `[0]` decodes to `proof0`. -/
def decode0 : List Nat → Option STARKProof :=
  fun b => if b = [0] then some proof0 else none

/-- The engine fixture node: id `node1`, stake 10000, no fallbacks. -/
def node0 : QubeNode :=
  ⟨"node1", 10000, []⟩

/-- A proposal whose zkURL resolves to `bundle0` under `env0`. -/
def proposal0 : BlockProposal :=
  ⟨"bh", "sr", "zk://prover1@domain.com/block1", [], "p", 0⟩

/-- A proposal whose address lacks the zk scheme. -/
def proposalBad : BlockProposal :=
  ⟨"bh", "sr", "http://domain.com/block1", [], "p", 0⟩

/-- Environment on which `proposal0` fully succeeds: the primary URL serves
`bundle0`, the proof bytes decode to `proof0`, and the channel is open. -/
def env0 : NetEnv :=
  { fetch := fun u => if u = "https://domain.com/proof/block1" then some bundle0 else none
    decode := decode0
    now := 1000
    elapsed_ms := 0
    vote_channel_open := true }

/-- Environment serving `bundle1`, whose `state_root` mismatches `proposal0`. -/
def env1 : NetEnv :=
  { env0 with
    fetch := fun u => if u = "https://domain.com/proof/block1" then some bundle1 else none }

/-- The same environment as `env0` but with the outbound channel closed. -/
def envClosed : NetEnv :=
  { env0 with vote_channel_open := false }

/-- The parsed form of `proposal0`'s zkURL. -/
def zkurl0 : ZkURL :=
  ⟨some "prover1", "domain.com", "block1", none⟩

/-- A concrete vote for the ledger fixtures. -/
def vote0 : Vote :=
  ⟨"bh", "val1", 100, 0, "sig"⟩

/-- A bundle whose proof exceeds the 5,000,000-byte limit. -/
def bigBundle : ProofBundle :=
  { bundle0 with proof := List.replicate 5000001 0, timestamp := 10000 }

/-! ## Helper lemmas -/

theorem splitAtFirst_eq_none_iff (c : Char) (l : List Char) :
    splitAtFirst c l = none ↔ c ∉ l := by
  induction l with
  | nil => simp [splitAtFirst]
  | cons x xs ih =>
    simp only [splitAtFirst, List.mem_cons]
    by_cases hx : x = c
    · simp [hx]
    · have hcx : ¬c = x := fun hh => hx hh.symm
      cases h : splitAtFirst c xs with
      | none =>
        rw [h] at ih
        simp [hx, hcx, ih.mp rfl]
      | some ab =>
        rw [h] at ih
        obtain ⟨a, b⟩ := ab
        have hmem : c ∈ xs := by
          by_contra hm
          exact Option.some_ne_none _ (ih.mpr hm)
        simp [hx, hcx, hmem]

theorem fromStrBody_ne_invalidScheme (l : List Char) :
    fromStrBody l ≠ .error .InvalidScheme := by
  unfold fromStrBody
  cases h : splitAtFirst '/' (domainHashAndPath l) with
  | none => simp
  | some dp =>
    obtain ⟨d, p⟩ := dp
    cases hm : metadataStr l with
    | none => simp
    | some m => simp [ZkURLMetadata.parse]

theorem fromStrBody_invalidFormat_iff (l : List Char) :
    fromStrBody l = .error .InvalidFormat ↔
      splitAtFirst '/' (domainHashAndPath l) = none := by
  unfold fromStrBody
  cases h : splitAtFirst '/' (domainHashAndPath l) with
  | none => simp
  | some dp =>
    obtain ⟨d, p⟩ := dp
    cases hm : metadataStr l with
    | none => simp
    | some m => simp [ZkURLMetadata.parse]

/-! ## Claim theorems -/

/-- C9: zkURL parsing fails with `InvalidScheme` exactly when the input does
not start with `"zk://"`; for scheme-prefixed inputs it fails with
`InvalidFormat` exactly when no `'/'` occurs in the segment the parser
takes as domain-or-hash plus path; empty segments, as in `"zk:///"`,
parse successfully. -/
theorem zkurl_parse_error_characterization :
    (∀ s : List Char,
      fromStr s = .error .InvalidScheme ↔ startsWithScheme s = false) ∧
    (∀ s : List Char, startsWithScheme s = true →
      (fromStr s = .error .InvalidFormat ↔ '/' ∉ domainHashAndPath (s.drop 5))) ∧
    fromStr "zk:///".data = .ok ⟨none, "", "", none⟩ := by
  refine ⟨?_, ?_, by decide⟩
  · intro s
    unfold fromStr
    by_cases h : startsWithScheme s
    · simp [h, fromStrBody_ne_invalidScheme]
    · simp [h]
  · intro s hs
    unfold fromStr
    rw [if_pos hs, fromStrBody_invalidFormat_iff, splitAtFirst_eq_none_iff]

/-- Witness for C9: the three characterizations applied at concrete inputs. -/
theorem zkurl_parse_error_characterization_witness :
    (fromStr "http://domain.com/block".data = .error .InvalidScheme ↔
      startsWithScheme "http://domain.com/block".data = false) ∧
    (fromStr "zk://domaincom".data = .error .InvalidFormat ↔
      '/' ∉ domainHashAndPath ("zk://domaincom".data.drop 5)) ∧
    fromStr "zk:///".data = .ok ⟨none, "", "", none⟩ :=
  ⟨zkurl_parse_error_characterization.1 "http://domain.com/block".data,
   zkurl_parse_error_characterization.2.1 "zk://domaincom".data (by decide),
   zkurl_parse_error_characterization.2.2⟩

/-- C3: bundle validation against local clock `ct` accepts `timestamp = ct`
(with an in-bound proof size), rejects `timestamp = ct + 1` (the future
branch of the guard), rejects `timestamp = ct - 3601` (the staleness
branch), rejects any proof longer than 5,000,000 bytes, and accepts any
bundle with timestamp in `[ct - 3600, ct]` and proof length at most
5,000,000. -/
theorem bundle_validation_boundaries :
    (∀ (ct : Nat) (b : ProofBundle), b.timestamp = ct →
      b.proof.length ≤ 5000000 → verify_proof_bundle ct b = true) ∧
    (∀ (ct : Nat) (b : ProofBundle), b.timestamp = ct + 1 →
      verify_proof_bundle ct b = false) ∧
    (∀ (ct : Nat) (b : ProofBundle), 3601 ≤ ct → b.timestamp = ct - 3601 →
      verify_proof_bundle ct b = false) ∧
    (∀ (ct : Nat) (b : ProofBundle), b.proof.length > 5000000 →
      verify_proof_bundle ct b = false) ∧
    (∀ (ct : Nat) (b : ProofBundle), ct - 3600 ≤ b.timestamp →
      b.timestamp ≤ ct → b.proof.length ≤ 5000000 →
      verify_proof_bundle ct b = true) := by
  refine ⟨?_, ?_, ?_, ?_, ?_⟩ <;>
    · intro ct b
      intros
      simp only [verify_proof_bundle, freshnessGuard]
      split_ifs <;> simp_all <;> omega

/-- Witness for C3: the five boundary facts at clock value 10000. -/
theorem bundle_validation_boundaries_witness :
    verify_proof_bundle 10000 { bundle0 with timestamp := 10000 } = true ∧
    verify_proof_bundle 10000 { bundle0 with timestamp := 10001 } = false ∧
    verify_proof_bundle 10000 { bundle0 with timestamp := 6399 } = false ∧
    verify_proof_bundle 10000 bigBundle = false ∧
    verify_proof_bundle 10000 { bundle0 with timestamp := 6400 } = true :=
  ⟨bundle_validation_boundaries.1 10000 _ rfl (by decide),
   bundle_validation_boundaries.2.1 10000 _ rfl,
   bundle_validation_boundaries.2.2.1 10000 _ (by decide) rfl,
   bundle_validation_boundaries.2.2.2.1 10000 _
     (by rw [show bigBundle.proof = List.replicate 5000001 0 from rfl,
           List.length_replicate]; omega),
   bundle_validation_boundaries.2.2.2.2 10000 _ (by decide) (by decide) (by decide)⟩

/-- C10: the u64 subtraction in the freshness test is behaviorally safe:
the short-circuiting disjunction gives the same result as the exact
integer-arithmetic test on all inputs, and whenever
`current_time < timestamp` (the only inputs on which the subtraction
would underflow) the first disjunct already decides the guard. -/
theorem freshness_guard_no_underflow :
    (∀ current_time ts : Nat,
      freshnessGuard current_time ts = freshnessGuardExact current_time ts) ∧
    (∀ current_time ts : Nat, current_time < ts →
      freshnessGuard current_time ts = true) := by
  constructor
  · intro ct ts
    unfold freshnessGuard freshnessGuardExact
    by_cases h : ct < ts
    · simp [h]
    · have hiff : ct - ts > 3600 ↔ (ct : Int) - (ts : Int) > 3600 := by omega
      simp [h, hiff]
  · intro ct ts h
    simp [freshnessGuard, h]

/-- Witness for C10: the guard agreement and the underflow-guarding branch
at concrete clock values. -/
theorem freshness_guard_no_underflow_witness :
    freshnessGuard 3 5 = freshnessGuardExact 3 5 ∧ freshnessGuard 3 5 = true :=
  ⟨freshness_guard_no_underflow.1 3 5, freshness_guard_no_underflow.2 3 5 (by decide)⟩

theorem fetch_fallbacks_eq_firstValid (env : String → Option ProofBundle)
    (ct : Nat) (pid : String) (l : List String) :
    fetch_fallbacks env ct pid l =
      match firstValidBundle env ct (l.map (fun e => e ++ "/proof/" ++ pid)) with
      | some b => .ok b
      | none => .error (.ParseError "Proof not found at any endpoint") := by
  induction l with
  | nil => rfl
  | cons e rest ih =>
    simp only [fetch_fallbacks, List.map, firstValidBundle]
    cases env (e ++ "/proof/" ++ pid) with
    | none => exact ih
    | some b =>
      by_cases hv : verify_proof_bundle ct b
      · simp [hv]
      · simp [hv, ih]

/-- C4: `fetch_proof` tries the primary constructed URL first, then each
fallback endpoint in list order as `{endpoint}/proof/{proof_id}`, and
returns the first bundle that both fetches and validates; when the primary
attempt and every fallback attempt fail to fetch or to validate, it
returns the all-endpoints-exhausted error (realized in the source as
`ParseError "Proof not found at any endpoint"`). -/
theorem fetch_proof_first_valid_or_exhausted (env : String → Option ProofBundle)
    (ct : Nat) (fallback_endpoints : List String) (zkurl : ZkURL) :
    fetch_proof env ct fallback_endpoints zkurl =
      match firstValidBundle env ct (candidateUrls zkurl fallback_endpoints) with
      | some b => .ok b
      | none => .error (.ParseError "Proof not found at any endpoint") := by
  simp only [fetch_proof, candidateUrls, firstValidBundle]
  cases env (construct_url zkurl) with
  | none => exact fetch_fallbacks_eq_firstValid env ct zkurl.proof_id fallback_endpoints
  | some b =>
    by_cases hv : verify_proof_bundle ct b
    · simp [hv]
    · simp [hv, fetch_fallbacks_eq_firstValid]

/-- C5: `verify_stark_proof` equals the conjunction of the structural
check, the FRI-consistency check, and the constraint check, in that
short-circuit order; it is `true` exactly when all three pass and `false`
as soon as any stage fails, with no other outcome. -/
theorem verify_stark_proof_eq_and_chain (proof : STARKProof) :
    verify_stark_proof proof =
      (verify_proof_structure proof && verify_fri_consistency proof &&
        verify_constraints proof) := by
  unfold verify_stark_proof
  cases h : verify_proof_structure proof <;>
    simp [h, verify_fri_consistency, verify_constraints]

/-- C8: `verify_proof` errors exactly when the bytes do not decode into the
expected proof structure; on decodable bytes it returns `Ok` with the
verification verdict, and that verdict does not depend on the elapsed
verification time (exceeding the 500 ms budget only adds a warning). -/
theorem verify_proof_deserialization_and_time
    (decode : List Nat → Option STARKProof) (elapsed_ms : Nat)
    (proof_bytes : List Nat) :
    ((∃ msg, (verify_proof decode elapsed_ms proof_bytes).2 = .error msg) ↔
      decode proof_bytes = none) ∧
    (∀ proof, decode proof_bytes = some proof →
      (verify_proof decode elapsed_ms proof_bytes).2 =
        .ok (verify_stark_proof proof)) ∧
    (∀ elapsed2, (verify_proof decode elapsed_ms proof_bytes).2 =
      (verify_proof decode elapsed2 proof_bytes).2) := by
  cases h : decode proof_bytes <;> simp [verify_proof, h]

/-- Witness for C8: decodable bytes give the verdict independently of a
700 ms elapsed time; undecodable bytes give the deserialization error. -/
theorem verify_proof_deserialization_and_time_witness :
    (verify_proof decode0 0 [0]).2 = .ok (verify_stark_proof proof0) ∧
    (verify_proof decode0 0 [0]).2 = (verify_proof decode0 700 [0]).2 ∧
    decode0 [1] = none :=
  ⟨(verify_proof_deserialization_and_time decode0 0 [0]).2.1 proof0 (by decide),
   (verify_proof_deserialization_and_time decode0 0 [0]).2.2 700,
   (verify_proof_deserialization_and_time decode0 0 [1]).1.mp
     ⟨"Failed to deserialize proof", by decide⟩⟩


/-- C2: for every proposal that reaches the consistency-check stage (the
address parsed, the bundle fetched, the proof verified), the engine checks
block hash, then state root, then transaction count, then summed gas, in
that order, and the result reports the first mismatching field; only when
all four agree does processing proceed to vote emission. -/
theorem consistency_checks_first_mismatch
    (node : QubeNode) (env : NetEnv) (st : ConsensusState)
    (proposal : BlockProposal) (zkurl : ZkURL) (bundle : ProofBundle)
    (hz : fromStr proposal.zkurl.data = .ok zkurl)
    (hf : fetch_proof env.fetch env.now node.fallback_endpoints zkurl = .ok bundle)
    (hv : (verify_proof env.decode env.elapsed_ms bundle.proof).2 = .ok true) :
    (process_block_proposal node env st proposal).result =
      match firstMismatch proposal bundle with
      | some .blockHashField => .error "Block hash mismatch with proof's public inputs!"
      | some .stateRootField => .error "State root mismatch!"
      | some .txCountField => .error "Transaction count mismatch!"
      | some .gasField => .error "Gas usage mismatch!"
      | none =>
        if env.vote_channel_open then .ok ()
        else .error "Failed to send vote: channel closed" := by
  simp only [process_block_proposal, hz, hf, hv]
  unfold firstMismatch
  split_ifs <;> rfl

/-- Witness for C2: with a bundle agreeing on the block hash but not the
state root, processing reports the state-root mismatch, the first failing
field in check order. -/
theorem consistency_checks_first_mismatch_witness :
    (process_block_proposal node0 env1 ConsensusState.new proposal0).result =
      .error "State root mismatch!" :=
  (consistency_checks_first_mismatch node0 env1 ConsensusState.new proposal0
      zkurl0 bundle1 (by decide) (by decide) (by decide)).trans (by decide)

/-- C1 as amended: with the outbound vote channel open, a vote is emitted
if and only if address parsing, proof fetching, proof verification, and
all four consistency checks succeed; on full success exactly one vote is
emitted, with `voter_id` the engine's node id, `stake` the engine's
configured stake, and `block_hash` the proposal's block hash, and it is
sent to the outbound channel only — the consensus ledger state is never
updated by proposal processing (the original claim's "submitted to the
ConsensusLedger" does not hold, see the counterexample); on any failure no
vote is emitted. -/
theorem process_block_proposal_votes_channel_only
    (node : QubeNode) (env : NetEnv) (st : ConsensusState)
    (proposal : BlockProposal) (hopen : env.vote_channel_open = true) :
    (process_block_proposal node env st proposal).state = st ∧
    ((process_block_proposal node env st proposal).result = .ok () ↔
      ∃ zkurl bundle,
        fromStr proposal.zkurl.data = .ok zkurl ∧
        fetch_proof env.fetch env.now node.fallback_endpoints zkurl = .ok bundle ∧
        (verify_proof env.decode env.elapsed_ms bundle.proof).2 = .ok true ∧
        bundle.public_inputs.block_hash = proposal.block_hash ∧
        bundle.public_inputs.state_root = proposal.state_root ∧
        bundle.public_inputs.transaction_count = txCountU32 proposal ∧
        bundle.public_inputs.gas_used = calc_gas proposal) ∧
    ((process_block_proposal node env st proposal).result = .ok () →
      (process_block_proposal node env st proposal).sent_votes =
        [⟨proposal.block_hash, node.node_id, node.stake_amount, env.now,
          "dummy_signature"⟩]) ∧
    ((process_block_proposal node env st proposal).result ≠ .ok () →
      (process_block_proposal node env st proposal).sent_votes = []) := by
  cases hz : fromStr proposal.zkurl.data with
  | error e => simp [process_block_proposal, hz]
  | ok zkurl =>
    cases hf : fetch_proof env.fetch env.now node.fallback_endpoints zkurl with
    | error e => simp [process_block_proposal, hz, hf]
    | ok bundle =>
      cases hv : (verify_proof env.decode env.elapsed_ms bundle.proof).2 with
      | error e => simp [process_block_proposal, hz, hf, hv]
      | ok verdict =>
        cases verdict with
        | false => simp [process_block_proposal, hz, hf, hv]
        | true =>
          by_cases h1 : proposal.block_hash ≠ bundle.public_inputs.block_hash
          · simp [process_block_proposal, hz, hf, hv, h1, Ne.symm h1]
          rw [Ne, not_not] at h1
          by_cases h2 : proposal.state_root ≠ bundle.public_inputs.state_root
          · simp [process_block_proposal, hz, hf, hv, h1, h2, Ne.symm h2]
          rw [Ne, not_not] at h2
          by_cases h3 : txCountU32 proposal ≠ bundle.public_inputs.transaction_count
          · simp [process_block_proposal, hz, hf, hv, h1, h2, h3, Ne.symm h3]
          rw [Ne, not_not] at h3
          by_cases h4 : calc_gas proposal ≠ bundle.public_inputs.gas_used
          · simp [process_block_proposal, hz, hf, hv, h1, h2, h3, h4, Ne.symm h4]
          rw [Ne, not_not] at h4
          simp [process_block_proposal, hz, hf, hv, h1, h2, h3, h4, hopen]

/-- Counterexample to C1 as stated: on a fully successful concrete
proposal, exactly one correct vote is sent on the outbound channel, yet
the consensus ledger (the engine's `ConsensusState`) still contains no
votes — the vote is not submitted to the ConsensusLedger. -/
theorem process_block_proposal_ledger_not_updated_cex :
    (process_block_proposal node0 env0 ConsensusState.new proposal0).result = .ok () ∧
    (process_block_proposal node0 env0 ConsensusState.new proposal0).sent_votes =
      [⟨"bh", "node1", 10000, 1000, "dummy_signature"⟩] ∧
    (process_block_proposal node0 env0 ConsensusState.new proposal0).state.votes = [] :=
  ⟨by decide, by decide, by decide⟩

/-- Witness for C1 (amended): the amended theorem applied to the concrete
fully successful proposal — the state passes through unchanged and exactly
the expected vote is sent. -/
theorem process_block_proposal_votes_channel_only_witness :
    (process_block_proposal node0 env0 ConsensusState.new proposal0).state =
      ConsensusState.new ∧
    (process_block_proposal node0 env0 ConsensusState.new proposal0).sent_votes =
      [⟨proposal0.block_hash, node0.node_id, node0.stake_amount, env0.now,
        "dummy_signature"⟩] :=
  ⟨(process_block_proposal_votes_channel_only node0 env0 ConsensusState.new
      proposal0 rfl).1,
   (process_block_proposal_votes_channel_only node0 env0 ConsensusState.new
      proposal0 rfl).2.2.1 (by decide)⟩

theorem insertVote_idem (key : String) (v : Vote) (l : List (String × Vote)) :
    insertVote key v (insertVote key v l) = insertVote key v l := by
  induction l with
  | nil => simp [insertVote]
  | cons kw rest ih =>
    obtain ⟨k, w⟩ := kw
    by_cases h : k = key
    · simp [insertVote, h]
    · simp [insertVote, h, ih]

theorem insertVote_fresh (key : String) (v : Vote) (l : List (String × Vote))
    (h : lookupVote key l = none) : insertVote key v l = l ++ [(key, v)] := by
  induction l with
  | nil => rfl
  | cons kw rest ih =>
    obtain ⟨k, w⟩ := kw
    by_cases hk : k = key
    · simp [lookupVote, hk] at h
    · simp only [lookupVote, hk, if_false] at h
      simp [insertVote, hk, ih h]

/-- C6: recording the identical vote twice changes the aggregate stake for
its `(height, block_hash)` by that vote's stake exactly once — votes are
keyed by `(height, block_hash, voter_id)` and a duplicate insert is a
no-op, never a double-count. The record operation is modelled from the
spec (sections 3 and 4.5), since the source declares the vote map but
contains no insertion site. -/
theorem record_vote_idempotent_stake_once (st : ConsensusState) (height : Nat)
    (v : Vote)
    (h : lookupVote (voteKey height v.block_hash v.voter_id) st.votes = none) :
    record_vote height v (record_vote height v st) = record_vote height v st ∧
    aggregate_stake (record_vote height v st) height v.block_hash =
      aggregate_stake st height v.block_hash + v.stake := by
  constructor
  · unfold record_vote
    simp [insertVote_idem]
  · unfold record_vote aggregate_stake
    simp only
    rw [insertVote_fresh _ _ _ h, List.filter_append, List.map_append,
      List.sum_append]
    simp

/-- Witness for C6: recording `vote0` twice into the empty state is the
same as recording it once, and raises the aggregate stake for height 5 and
block `"bh"` by exactly 100, `vote0`'s stake. -/
theorem record_vote_idempotent_stake_once_witness :
    record_vote 5 vote0 (record_vote 5 vote0 ConsensusState.new) =
      record_vote 5 vote0 ConsensusState.new ∧
    aggregate_stake (record_vote 5 vote0 ConsensusState.new) 5 "bh" =
      aggregate_stake ConsensusState.new 5 "bh" + 100 :=
  record_vote_idempotent_stake_once ConsensusState.new 5 vote0 rfl

/-- C7 as amended: the engine's main loop never halts because of a single
proposal's failure — every processing failure is reported and the loop
resumes with the next proposal — and this holds for all failures
including a closed outbound vote channel: the loop body has no exit path,
so it never terminates (the original claim's clean termination on
`ChannelClosed` does not hold, see the counterexample). -/
theorem run_loop_never_terminates :
    (∀ (recv_result : Option BlockProposal) (handle : BlockProposal → ProcResult),
      (run_loop_body recv_result handle).1 = .continueLoop) ∧
    (∀ (proposal : BlockProposal) (handle : BlockProposal → ProcResult)
        (e : String), (handle proposal).result = .error e →
      run_loop_body (some proposal) handle =
        (.continueLoop, ["Proposal processing failed: " ++ e])) := by
  constructor
  · intro recv_result handle
    cases recv_result with
    | none => rfl
    | some proposal =>
      cases h : (handle proposal).result <;> simp [run_loop_body, h]
  · intro proposal handle e h
    simp [run_loop_body, h]

/-- Counterexample to C7 as stated: on a concrete proposal whose
processing fails precisely because the outbound vote channel is closed,
the loop body yields `continueLoop` with the failure merely printed — it
does not terminate, cleanly or otherwise. -/
theorem run_loop_continues_on_channel_closed_cex :
    (process_block_proposal node0 envClosed ConsensusState.new proposal0).result =
      .error "Failed to send vote: channel closed" ∧
    run_loop_body (some proposal0)
        (process_block_proposal node0 envClosed ConsensusState.new) =
      (.continueLoop,
        ["Proposal processing failed: Failed to send vote: channel closed"]) ∧
    LoopControl.continueLoop ≠ LoopControl.terminateLoop :=
  ⟨by decide, by decide, by decide⟩

/-- Witness for C7 (amended): the loop continues on an empty receive and
resumes after reporting a concrete proposal's parse failure. -/
theorem run_loop_never_terminates_witness :
    (run_loop_body none (process_block_proposal node0 env0 ConsensusState.new)).1 =
      .continueLoop ∧
    run_loop_body (some proposalBad)
        (process_block_proposal node0 env0 ConsensusState.new) =
      (.continueLoop,
        ["Proposal processing failed: Invalid zkURL: Invalid zkURL scheme"]) :=
  ⟨run_loop_never_terminates.1 none _,
   run_loop_never_terminates.2 proposalBad _ "Invalid zkURL: Invalid zkURL scheme"
     (by decide)⟩

end Cubiq
